import Mathlib

/-!
Verification of the CSS selector builder in `src/task/08-objects-tasks.js`
(`Selector`, `CombineSelector`, the `cssSelectorBuilder` facade) and of the
`Rectangle` value object, against the natural-language specification.

The JavaScript code is shallowly embedded: the mutable `cache` bag becomes an
explicit record, each prototype method becomes a function from the receiver
state to the state after the call paired with an optional raised error
(a JavaScript `throw` aborts the method before any mutation, so every error
branch returns the receiver unchanged), and JavaScript string truthiness is
`≠ ""` / list-length truthiness is `≠ 0`.
-/

set_option maxHeartbeats 1000000

namespace ObjectsTasks

/-- The six fragment categories the `Selector` constructor dispatches on
(the keys of the `cache` object in the source). -/
inductive FragType where
  | element
  | id
  | className
  | «attribute»
  | pseudoClass
  | pseudoElement
deriving DecidableEq, Repr

/-- The `cache` object of a `Selector`: two kinds of slots, single strings
(`element`, `id`, `pseudoElement`, unset represented by `''` as in the
source) and ordered arrays (`className`, `attribute`, `pseudoClass`). -/
structure Cache where
  element : String
  id : String
  className : List String
  «attribute» : List String
  pseudoClass : List String
  pseudoElement : String
deriving DecidableEq, Repr

/-- The all-empty cache the `Selector` constructor starts from. -/
def Cache.empty : Cache := ⟨"", "", [], [], [], ""⟩

/-- A simple selector node: holds its `cache` bag, as in the source. -/
structure Selector where
  cache : Cache
deriving DecidableEq, Repr

/-- The `Selector(type, value)` constructor: start from the empty cache and
fill exactly the requested slot (`[value]` for the array slots, `value`
for the string slots). -/
def Selector.make (t : FragType) (v : String) : Selector :=
  match t with
  | .element => ⟨{ Cache.empty with element := v }⟩
  | .id => ⟨{ Cache.empty with id := v }⟩
  | .className => ⟨{ Cache.empty with className := [v] }⟩
  | .«attribute» => ⟨{ Cache.empty with «attribute» := [v] }⟩
  | .pseudoClass => ⟨{ Cache.empty with pseudoClass := [v] }⟩
  | .pseudoElement => ⟨{ Cache.empty with pseudoElement := v }⟩

/-- The two errors the fragment methods can throw, distinguished (as the
spec does) by their message. -/
inductive SelError where
  | duplicateKind
  | order
deriving DecidableEq, Repr

/-- The exact message strings thrown by the source. -/
def SelError.message : SelError → String
  | .duplicateKind =>
      "Element, id and pseudo-element should not occur more then one time inside the selector"
  | .order =>
      "Selector parts should be arranged in the following order: element, id, class, attribute, pseudo-class, pseudo-element"

/-- `Array.prototype.map(...).join('')` over a list of fragments. -/
def joinAll : List String → String
  | [] => ""
  | x :: xs => x ++ joinAll xs

/-- `Selector.prototype.stringify`: element, `#id` (if truthy), each
`.className`, each `[attribute]`, each `:pseudoClass`, `::pseudoElement`
(if truthy), concatenated. -/
def Selector.stringify (self : Selector) : String :=
  self.cache.element
    ++ (if self.cache.id ≠ "" then "#" ++ self.cache.id else "")
    ++ joinAll (self.cache.className.map (fun c => "." ++ c))
    ++ joinAll (self.cache.«attribute».map (fun a => "[" ++ a ++ "]"))
    ++ joinAll (self.cache.pseudoClass.map (fun p => ":" ++ p))
    ++ (if self.cache.pseudoElement ≠ "" then "::" ++ self.cache.pseudoElement else "")

/-- `Selector.prototype.element`: throws the duplicate error when the element
slot is truthy, otherwise throws the order error; never mutates, never
returns normally. (The source function ignores its argument.) -/
def Selector.element (self : Selector) : Selector × Option SelError :=
  if self.cache.element ≠ "" then (self, some .duplicateKind)
  else (self, some .order)

/-- `Selector.prototype.id`: duplicate check on the id slot first, then the
order check against class/attribute/pseudo-class/pseudo-element, then the
mutation `cache.id = value`. -/
def Selector.id (self : Selector) (value : String) : Selector × Option SelError :=
  if self.cache.id ≠ "" then (self, some .duplicateKind)
  else if self.cache.className.length ≠ 0 ∨ self.cache.«attribute».length ≠ 0 ∨
      self.cache.pseudoClass.length ≠ 0 ∨ self.cache.pseudoElement ≠ "" then
    (self, some .order)
  else ({ cache := { self.cache with id := value } }, none)

/-- `Selector.prototype.class`: order check against
attribute/pseudo-class/pseudo-element, then `cache.className.push(value)`. -/
def Selector.«class» (self : Selector) (value : String) : Selector × Option SelError :=
  if self.cache.«attribute».length ≠ 0 ∨ self.cache.pseudoClass.length ≠ 0 ∨
      self.cache.pseudoElement ≠ "" then
    (self, some .order)
  else ({ cache := { self.cache with className := self.cache.className ++ [value] } }, none)

/-- `Selector.prototype.attr`: order check against
pseudo-class/pseudo-element, then `cache.attribute.push(value)`. -/
def Selector.attr (self : Selector) (value : String) : Selector × Option SelError :=
  if self.cache.pseudoClass.length ≠ 0 ∨ self.cache.pseudoElement ≠ "" then
    (self, some .order)
  else ({ cache := { self.cache with «attribute» := self.cache.«attribute» ++ [value] } }, none)

/-- `Selector.prototype.pseudoClass`: order check against pseudo-element,
then `cache.pseudoClass.push(value)`. -/
def Selector.pseudoClass (self : Selector) (value : String) : Selector × Option SelError :=
  if self.cache.pseudoElement ≠ "" then (self, some .order)
  else ({ cache := { self.cache with pseudoClass := self.cache.pseudoClass ++ [value] } }, none)

/-- `Selector.prototype.pseudoElement`: duplicate check on the
pseudo-element slot, then the mutation `cache.pseudoElement = value`. -/
def Selector.pseudoElement (self : Selector) (value : String) : Selector × Option SelError :=
  if self.cache.pseudoElement ≠ "" then (self, some .duplicateKind)
  else ({ cache := { self.cache with pseudoElement := value } }, none)

/-- A selector node: either a simple `Selector` or a `CombineSelector`
(two child nodes and a combinator string, immutable once built). -/
inductive CssNode where
  | simple (s : Selector)
  | combine (selector1 : CssNode) (combinator : String) (selector2 : CssNode)
deriving DecidableEq, Repr

/-- `stringify` over a node tree; on a `CombineSelector` the source returns
the template literal `s1.stringify() ++ ' ' ++ combinator ++ ' ' ++ s2.stringify()`. -/
def CssNode.stringify : CssNode → String
  | .simple s => s.stringify
  | .combine l c r => l.stringify ++ " " ++ c ++ " " ++ r.stringify

namespace cssSelectorBuilder

/-- Facade `element(value)`. -/
def element (value : String) : Selector := Selector.make .element value

/-- Facade `id(value)`. -/
def id (value : String) : Selector := Selector.make .id value

/-- Facade `class(value)`. -/
def «class» (value : String) : Selector := Selector.make .className value

/-- Facade `attr(value)`. -/
def attr (value : String) : Selector := Selector.make .«attribute» value

/-- Facade `pseudoClass(value)`. -/
def pseudoClass (value : String) : Selector := Selector.make .pseudoClass value

/-- Facade `pseudoElement(value)`. -/
def pseudoElement (value : String) : Selector := Selector.make .pseudoElement value

/-- Facade `combine(selector1, combinator, selector2)`: builds the
`CombineSelector` with no validation of any argument. -/
def combine (selector1 : CssNode) (combinator : String) (selector2 : CssNode) : CssNode :=
  CssNode.combine selector1 combinator selector2

end cssSelectorBuilder

/-- One fragment call: which method is invoked and with which value. -/
structure Frag where
  type : FragType
  value : String
deriving DecidableEq, Repr

/-- The fixed category index: element < id < class < attribute <
pseudo-class < pseudo-element. -/
def FragType.cat : FragType → Nat
  | .element => 0
  | .id => 1
  | .className => 2
  | .«attribute» => 3
  | .pseudoClass => 4
  | .pseudoElement => 5

/-- Dispatch one fragment method call on a selector node. -/
def applyFrag (s : Selector) (f : Frag) : Selector × Option SelError :=
  match f.type with
  | .element => s.element
  | .id => s.id f.value
  | .className => s.«class» f.value
  | .«attribute» => s.attr f.value
  | .pseudoClass => s.pseudoClass f.value
  | .pseudoElement => s.pseudoElement f.value

/-- Run a chain of fragment method calls; the first thrown error aborts the
chain and propagates (together with the state at that point, which the
failing call left unchanged). -/
def run (s : Selector) : List Frag → Selector × Option SelError
  | [] => (s, none)
  | f :: fs =>
    match applyFrag s f with
    | (s', none) => run s' fs
    | (s', some e) => (s', some e)

/-- Build a selector the way the facade is used: the first fragment call is
the factory (the constructor), every further fragment is a method call. -/
def build (f : Frag) (fs : List Frag) : Selector × Option SelError :=
  run (Selector.make f.type f.value) fs

/-- The canonical rendering of a single fragment in the final string. -/
def fragStr (f : Frag) : String :=
  match f.type with
  | .element => f.value
  | .id => "#" ++ f.value
  | .className => "." ++ f.value
  | .«attribute» => "[" ++ f.value ++ "]"
  | .pseudoClass => ":" ++ f.value
  | .pseudoElement => "::" ++ f.value

/-- Concatenation of the rendered fragments in call order. -/
def fragsStr (l : List Frag) : String := joinAll (l.map fragStr)

/-- A fragment-call sequence is valid when the category indices are
non-decreasing along it. -/
abbrev nonDecreasing (l : List Frag) : Prop :=
  List.Pairwise (fun a b => a.type.cat ≤ b.type.cat) l

/-- Every singleton-slot fragment (element, id, pseudo-element) in the list
carries a nonempty (truthy) value. -/
abbrev singletonsNonempty (l : List Frag) : Prop :=
  ∀ f ∈ l, (f.type = FragType.element ∨ f.type = FragType.id ∨
    f.type = FragType.pseudoElement) → f.value ≠ ""

/-- Whether the category with index `j` is present (truthy) in a cache. -/
def Cache.present (c : Cache) : Nat → Bool
  | 0 => decide (c.element ≠ "")
  | 1 => decide (c.id ≠ "")
  | 2 => decide (c.className ≠ [])
  | 3 => decide (c.«attribute» ≠ [])
  | 4 => decide (c.pseudoClass ≠ [])
  | 5 => decide (c.pseudoElement ≠ "")
  | _ + 6 => false

/-- Whether some category with index strictly above `k` is present. -/
def Cache.existsLater (c : Cache) (k : Nat) : Bool :=
  (decide (k < 1) && c.present 1) || (decide (k < 2) && c.present 2) ||
    (decide (k < 3) && c.present 3) || (decide (k < 4) && c.present 4) ||
    (decide (k < 5) && c.present 5)

/-- Whether the fragment targets a singleton slot that is already truthily
occupied (the source's duplicate-check condition). -/
def dupSlot (s : Selector) (f : Frag) : Bool :=
  match f.type with
  | .element => decide (s.cache.element ≠ "")
  | .id => decide (s.cache.id ≠ "")
  | .pseudoElement => decide (s.cache.pseudoElement ≠ "")
  | _ => false

/-- The successful mutation of each fragment method: set the singleton slot,
or push onto the array slot. -/
def insertFrag (s : Selector) (f : Frag) : Selector :=
  match f.type with
  | .element => ⟨{ s.cache with element := f.value }⟩
  | .id => ⟨{ s.cache with id := f.value }⟩
  | .className => ⟨{ s.cache with className := s.cache.className ++ [f.value] }⟩
  | .«attribute» => ⟨{ s.cache with «attribute» := s.cache.«attribute» ++ [f.value] }⟩
  | .pseudoClass => ⟨{ s.cache with pseudoClass := s.cache.pseudoClass ++ [f.value] }⟩
  | .pseudoElement => ⟨{ s.cache with pseudoElement := f.value }⟩

/-- The duplication/ordering rule stated from the (amended) specification
wording: the element method always throws (duplicate if its slot is truthy,
order otherwise); every other method first reports duplication when its own
singleton slot is truthily occupied, then reports an ordering violation when
some strictly later category is already present, and otherwise records the
fragment and succeeds. -/
def orderCheckSpec (s : Selector) (f : Frag) : Selector × Option SelError :=
  match f.type with
  | .element => (s, some (if s.cache.element ≠ "" then .duplicateKind else .order))
  | _ =>
    if dupSlot s f then (s, some .duplicateKind)
    else if s.cache.existsLater f.type.cat then (s, some .order)
    else (insertFrag s f, none)

/-- One observed call of `stringify` on a node: the node afterwards (the
method reads but never writes the receiver) and the returned string. -/
def stringifyCall (n : CssNode) : CssNode × String := (n, n.stringify)

/-- `N` successive `stringify` calls on the same node, collecting the
returned strings in order. -/
def stringifyCalls : CssNode → Nat → CssNode × List String
  | n, 0 => (n, [])
  | n, k + 1 =>
    let p := stringifyCall n
    let q := stringifyCalls p.1 k
    (q.1, p.2 :: q.2)

/-- The `Rectangle(width, height)` constructor stores both fields;
polymorphic over the numeric type and its multiplication. -/
structure Rectangle (α : Type) where
  width : α
  height : α

/-- `Rectangle.prototype.getArea`: `this.width * this.height`. -/
def Rectangle.getArea {α : Type} [Mul α] (r : Rectangle α) : α :=
  r.width * r.height

/-- C2: for every pair of selector nodes and every combinator string,
`combine(l, c, r).stringify()` equals `l.stringify() + ' ' + c + ' ' +
r.stringify()` — exactly one space on each side of the combinator whatever
string it is, so the descendant combinator `' '` yields three consecutive
spaces, as in `combine(element('div'), ' ', element('table'))`. -/
theorem combine_stringify_spaces :
    (∀ (l : CssNode) (c : String) (r : CssNode),
      (cssSelectorBuilder.combine l c r).stringify =
        l.stringify ++ " " ++ c ++ " " ++ r.stringify) ∧
    (cssSelectorBuilder.combine (CssNode.simple (cssSelectorBuilder.element "div")) " "
        (CssNode.simple (cssSelectorBuilder.element "table"))).stringify = "div   table" := by
  refine ⟨fun l c r => rfl, ?_⟩
  decide

/-- C5 (amended): the `element` method on an existing node always throws:
`DuplicateKindError` when the element slot is truthily set (even when other
slots are also set), `OrderError` otherwise. -/
theorem element_method_always_errors (s : Selector) :
    Selector.element s =
      (s, some (if s.cache.element ≠ "" then SelError.duplicateKind else SelError.order)) := by
  unfold Selector.element
  split <;> simp_all

/-- C5 counterexample: after `element('div').id('main').class('container')
.class('draggable')`, calling the `element` method raises
`DuplicateKindError`, not `OrderError` as the claim states. -/
theorem element_after_build_duplicate_cex :
    run (Selector.make FragType.element "div")
        [⟨FragType.id, "main"⟩, ⟨FragType.className, "container"⟩,
          ⟨FragType.className, "draggable"⟩] =
      (⟨⟨"div", "main", ["container", "draggable"], [], [], ""⟩⟩, none) ∧
    Selector.element ⟨⟨"div", "main", ["container", "draggable"], [], [], ""⟩⟩ =
      (⟨⟨"div", "main", ["container", "draggable"], [], [], ""⟩⟩,
        some SelError.duplicateKind) ∧
    SelError.duplicateKind ≠ SelError.order := by
  refine ⟨by decide, by decide, by decide⟩

/-- C4: calling `id` when the id slot is (truthily) occupied, or
`pseudoElement` when the pseudo-element slot is (truthily) occupied, raises
`DuplicateKindError` whatever else was added and whatever the new value is;
in particular `id('a').id('b')` raises `DuplicateKindError`. -/
theorem id_pseudoElement_duplicate :
    (∀ (s : Selector) (v : String),
      (s.cache.id ≠ "" → Selector.id s v = (s, some SelError.duplicateKind)) ∧
      (s.cache.pseudoElement ≠ "" →
        Selector.pseudoElement s v = (s, some SelError.duplicateKind))) ∧
    Selector.id (Selector.make FragType.id "a") "b" =
      (Selector.make FragType.id "a", some SelError.duplicateKind) := by
  refine ⟨fun s v => ⟨fun h => ?_, fun h => ?_⟩, by decide⟩
  · unfold Selector.id
    simp [h]
  · unfold Selector.pseudoElement
    simp [h]

/-- C4 witness: a concrete node whose id slot holds `'a'`; calling
`id('b')` on it raises `DuplicateKindError`. -/
theorem id_pseudoElement_duplicate_witness :
    Selector.id ⟨⟨"", "a", [], [], [], ""⟩⟩ "b" =
      (⟨⟨"", "a", [], [], [], ""⟩⟩, some SelError.duplicateKind) :=
  (id_pseudoElement_duplicate.1 ⟨⟨"", "a", [], [], [], ""⟩⟩ "b").1 (by decide)

/-- C6: every fragment method call that raises an error returns the receiver
state unchanged — no slot is set and no sequence is appended to on the
failing path. -/
theorem applyFrag_error_preserves_state (s : Selector) (f : Frag) (e : SelError)
    (h : (applyFrag s f).2 = some e) : (applyFrag s f).1 = s := by
  rcases f with ⟨t, v⟩
  cases t <;>
    simp only [applyFrag, Selector.element, Selector.id, Selector.«class», Selector.attr,
      Selector.pseudoClass, Selector.pseudoElement] at h ⊢ <;>
    split at h <;> simp_all <;> (try split at h) <;> simp_all

/-- C6 witness: adding a pseudo-class after a pseudo-element fails and
leaves the concrete state unchanged. -/
theorem applyFrag_error_preserves_state_witness :
    (applyFrag ⟨⟨"", "", [], [], [], "after"⟩⟩ ⟨FragType.pseudoClass, "x"⟩).1 =
      ⟨⟨"", "", [], [], [], "after"⟩⟩ :=
  applyFrag_error_preserves_state ⟨⟨"", "", [], [], [], "after"⟩⟩
    ⟨FragType.pseudoClass, "x"⟩ SelError.order (by decide)

/-- C7: `stringify()` is total on every node (it never fails), and
`combine` never fails: it performs no validation, stores the three arguments
as given, and its rendering echoes any combinator string verbatim. -/
theorem stringify_combine_total :
    (∀ n : CssNode, ∃ out : String, n.stringify = out) ∧
    (∀ (l : CssNode) (c : String) (r : CssNode),
      cssSelectorBuilder.combine l c r = CssNode.combine l c r ∧
      (cssSelectorBuilder.combine l c r).stringify =
        l.stringify ++ " " ++ c ++ " " ++ r.stringify) :=
  ⟨fun n => ⟨n.stringify, rfl⟩, fun _ _ _ => ⟨rfl, rfl⟩⟩

/-- C8: `stringify` is side-effect-free and idempotent: `N` successive calls
on a node leave the node unchanged and return `N` copies of the same
string. -/
theorem stringify_pure_idempotent (n : CssNode) (N : Nat) :
    stringifyCalls n N = (n, List.replicate N n.stringify) := by
  induction N with
  | zero => rfl
  | succ k ih => simp [stringifyCalls, stringifyCall, ih, List.replicate]

/-- C9: a singleton slot filled with the empty string counts as unoccupied:
after the `id('')` (resp. `pseudoElement('')`) factory, a second call to the
same slot does not raise `DuplicateKindError` but overwrites the slot, and
after `element('')` a second `element` call raises `OrderError`, not
`DuplicateKindError`. -/
theorem empty_singleton_slot_overwrite (v : String) :
    Selector.id (Selector.make FragType.id "") v =
      (⟨{ Cache.empty with id := v }⟩, none) ∧
    Selector.pseudoElement (Selector.make FragType.pseudoElement "") v =
      (⟨{ Cache.empty with pseudoElement := v }⟩, none) ∧
    Selector.element (Selector.make FragType.element "") =
      (Selector.make FragType.element "", some SelError.order) ∧
    SelError.order ≠ SelError.duplicateKind := by
  refine ⟨?_, ?_, by decide, by decide⟩
  · simp [Selector.id, Selector.make, Cache.empty]
  · simp [Selector.pseudoElement, Selector.make, Cache.empty]

/-- Concatenation distributes over `joinAll`. -/
lemma joinAll_append (l₁ l₂ : List String) :
    joinAll (l₁ ++ l₂) = joinAll l₁ ++ joinAll l₂ := by
  induction l₁ with
  | nil => simp [joinAll]
  | cons x xs ih => simp [joinAll, ih, String.append_assoc]

/-- The `element` method never returns normally. -/
lemma element_never_ok (s₀ s₁ : Selector) : Selector.element s₀ ≠ (s₁, none) := by
  unfold Selector.element
  split <;> simp

/-- A normal return of the `id` method appends `#`+value to the
stringification: its duplicate and order checks force the id slot and every
later section to be empty beforehand. -/
lemma id_ok_stringify (s₀ s₁ : Selector) (v : String) (hv : v ≠ "")
    (hok : Selector.id s₀ v = (s₁, none)) :
    s₁.stringify = s₀.stringify ++ ("#" ++ v) := by
  rcases s₀ with ⟨⟨e, i, cl, ab, pc, pe⟩⟩
  unfold Selector.id at hok
  split at hok
  next h1 => simp at hok
  next h1 =>
    split at hok
    next h2 => simp at hok
    next h2 =>
      push_neg at h1 h2
      obtain ⟨hcl, hab, hpc, hpe⟩ := h2
      simp only at h1 hcl hab hpc hpe
      rw [List.length_eq_zero] at hcl hab
      rw [List.length_eq_zero] at hpc
      subst h1 hcl hab hpc hpe
      simp only [Prod.mk.injEq] at hok
      rw [← hok.1]
      simp [Selector.stringify, joinAll, hv]

/-- A normal return of the `class` method appends `.`+value: its order check
forces the attribute, pseudo-class and pseudo-element sections to be empty
beforehand. -/
lemma class_ok_stringify (s₀ s₁ : Selector) (v : String)
    (hok : Selector.«class» s₀ v = (s₁, none)) :
    s₁.stringify = s₀.stringify ++ ("." ++ v) := by
  rcases s₀ with ⟨⟨e, i, cl, ab, pc, pe⟩⟩
  unfold Selector.«class» at hok
  split at hok
  next h2 => simp at hok
  next h2 =>
    push_neg at h2
    obtain ⟨hab, hpc, hpe⟩ := h2
    simp only at hab hpc hpe
    rw [List.length_eq_zero] at hab hpc
    subst hab hpc hpe
    simp only [Prod.mk.injEq] at hok
    rw [← hok.1]
    simp [Selector.stringify, joinAll, joinAll_append, String.append_assoc]

/-- A normal return of the `attr` method appends `[`+value+`]`: its order
check forces the pseudo-class and pseudo-element sections to be empty
beforehand. -/
lemma attr_ok_stringify (s₀ s₁ : Selector) (v : String)
    (hok : Selector.attr s₀ v = (s₁, none)) :
    s₁.stringify = s₀.stringify ++ ("[" ++ v ++ "]") := by
  rcases s₀ with ⟨⟨e, i, cl, ab, pc, pe⟩⟩
  unfold Selector.attr at hok
  split at hok
  next h2 => simp at hok
  next h2 =>
    push_neg at h2
    obtain ⟨hpc, hpe⟩ := h2
    simp only at hpc hpe
    rw [List.length_eq_zero] at hpc
    subst hpc hpe
    simp only [Prod.mk.injEq] at hok
    rw [← hok.1]
    simp [Selector.stringify, joinAll, joinAll_append, String.append_assoc]

/-- A normal return of the `pseudoClass` method appends `:`+value: its order
check forces the pseudo-element section to be empty beforehand. -/
lemma pseudoClass_ok_stringify (s₀ s₁ : Selector) (v : String)
    (hok : Selector.pseudoClass s₀ v = (s₁, none)) :
    s₁.stringify = s₀.stringify ++ (":" ++ v) := by
  rcases s₀ with ⟨⟨e, i, cl, ab, pc, pe⟩⟩
  unfold Selector.pseudoClass at hok
  split at hok
  next h2 => simp at hok
  next h2 =>
    push_neg at h2
    simp only at h2
    subst h2
    simp only [Prod.mk.injEq] at hok
    rw [← hok.1]
    simp [Selector.stringify, joinAll, joinAll_append, String.append_assoc]

/-- A normal return of the `pseudoElement` method appends `::`+value: its
duplicate check forces the pseudo-element slot to be empty beforehand. -/
lemma pseudoElement_ok_stringify (s₀ s₁ : Selector) (v : String) (hv : v ≠ "")
    (hok : Selector.pseudoElement s₀ v = (s₁, none)) :
    s₁.stringify = s₀.stringify ++ ("::" ++ v) := by
  rcases s₀ with ⟨⟨e, i, cl, ab, pc, pe⟩⟩
  unfold Selector.pseudoElement at hok
  split at hok
  next h2 => simp at hok
  next h2 =>
    push_neg at h2
    simp only at h2
    subst h2
    simp only [Prod.mk.injEq] at hok
    rw [← hok.1]
    simp [Selector.stringify, joinAll, String.append_assoc, hv]

/-- A fragment method call that returns normally appends exactly that
fragment's rendering to the receiver's stringification (given a truthy value
when the fragment targets a singleton slot): the method's own checks
guarantee that every strictly later section of the output was empty. -/
lemma applyFrag_ok_stringify_step (s₀ s₁ : Selector) (f : Frag)
    (hok : applyFrag s₀ f = (s₁, none))
    (hv : (f.type = FragType.element ∨ f.type = FragType.id ∨
      f.type = FragType.pseudoElement) → f.value ≠ "") :
    s₁.stringify = s₀.stringify ++ fragStr f := by
  rcases f with ⟨t, v⟩
  cases t
  case element => exact absurd hok (element_never_ok s₀ s₁)
  case id => exact id_ok_stringify s₀ s₁ v (hv (Or.inr (Or.inl rfl))) hok
  case className => exact class_ok_stringify s₀ s₁ v hok
  case «attribute» => exact attr_ok_stringify s₀ s₁ v hok
  case pseudoClass => exact pseudoClass_ok_stringify s₀ s₁ v hok
  case pseudoElement =>
    exact pseudoElement_ok_stringify s₀ s₁ v (hv (Or.inr (Or.inr rfl))) hok

/-- Running a chain of fragment calls that returns normally appends the
renderings of the fragments, in call order, to the initial
stringification. -/
lemma run_ok_stringify (l : List Frag) (s₀ sF : Selector)
    (hrun : run s₀ l = (sF, none)) (hv : singletonsNonempty l) :
    sF.stringify = s₀.stringify ++ fragsStr l := by
  induction l generalizing s₀ with
  | nil =>
    unfold run at hrun
    simp only [Prod.mk.injEq] at hrun
    rw [← hrun.1]
    simp [fragsStr, joinAll]
  | cons f fs ih =>
    unfold run at hrun
    rcases happ : applyFrag s₀ f with ⟨s₁, oe⟩
    rw [happ] at hrun
    cases oe with
    | some e => simp at hrun
    | none =>
      have hstep := applyFrag_ok_stringify_step s₀ s₁ f happ
        (fun h => hv f (List.mem_cons_self f fs) h)
      have htail := ih s₁ hrun (fun g hg h => hv g (List.mem_cons_of_mem f hg) h)
      rw [htail, hstep]
      show s₀.stringify ++ fragStr f ++ fragsStr fs =
        s₀.stringify ++ joinAll (List.map fragStr (f :: fs))
      simp [fragsStr, joinAll, String.append_assoc]

/-- The factory call renders to exactly its fragment's rendering (given a
truthy value for the singleton slots). -/
lemma make_stringify (t : FragType) (v : String)
    (hv : (t = FragType.element ∨ t = FragType.id ∨ t = FragType.pseudoElement) → v ≠ "") :
    (Selector.make t v).stringify = fragStr ⟨t, v⟩ := by
  cases t
  case element =>
    simp [Selector.make, Selector.stringify, Cache.empty, fragStr, joinAll]
  case id =>
    have hv' : v ≠ "" := hv (by simp)
    simp [Selector.make, Selector.stringify, Cache.empty, fragStr, joinAll, hv']
  case className =>
    simp [Selector.make, Selector.stringify, Cache.empty, fragStr, joinAll]
  case «attribute» =>
    simp [Selector.make, Selector.stringify, Cache.empty, fragStr, joinAll]
  case pseudoClass =>
    simp [Selector.make, Selector.stringify, Cache.empty, fragStr, joinAll]
  case pseudoElement =>
    have hv' : v ≠ "" := hv (by simp)
    simp [Selector.make, Selector.stringify, Cache.empty, fragStr, joinAll, hv']

/-- C1 (amended): a selector with no fragments stringifies to the empty
string, and every selector built by a valid (non-decreasing category order)
sequence of fragment calls whose element/id/pseudo-element fragments carry
nonempty values stringifies to exactly the concatenation of the rendered
fragments in call order — element value, then `#`+id, then `.`+className
each, then `[`+attribute+`]` each, then `:`+pseudoClass each, then
`::`+pseudoElement — with no fragment lost or reordered. -/
theorem build_stringify_fragsStr :
    Selector.stringify ⟨Cache.empty⟩ = "" ∧
    ∀ (f : Frag) (fs : List Frag) (sF : Selector),
      nonDecreasing (f :: fs) →
      singletonsNonempty (f :: fs) →
      build f fs = (sF, none) →
      sF.stringify = fragsStr (f :: fs) := by
  constructor
  · decide
  · intro f fs sF _ hv hb
    rcases f with ⟨t, v⟩
    have h1 := run_ok_stringify fs (Selector.make t v) sF hb
      (fun g hg h => hv g (List.mem_cons_of_mem _ hg) h)
    have h2 := make_stringify t v (fun h => hv ⟨t, v⟩ (List.mem_cons_self _ _) h)
    rw [h1, h2]
    show fragStr ⟨t, v⟩ ++ fragsStr fs = joinAll (List.map fragStr (⟨t, v⟩ :: fs))
    simp [fragsStr, joinAll]

/-- C1 witness: `element('a').class('b')` builds successfully and
stringifies to the concatenation `'a' ++ '.b'`. -/
theorem build_stringify_fragsStr_witness :
    Selector.stringify ⟨⟨"a", "", ["b"], [], [], ""⟩⟩ =
      fragsStr [⟨FragType.element, "a"⟩, ⟨FragType.className, "b"⟩] :=
  build_stringify_fragsStr.2 ⟨FragType.element, "a"⟩ [⟨FragType.className, "b"⟩]
    ⟨⟨"a", "", ["b"], [], [], ""⟩⟩ (by decide) (by decide) (by decide)

/-- C1 counterexample: `id('').id('b')` is a non-decreasing sequence of
fragment calls that builds without error, yet the result stringifies to
`'#b'` while the concatenation of the two rendered fragments is `'##b'` —
the first fragment is lost (the empty-string id slot is overwritten). -/
theorem build_stringify_empty_id_cex :
    nonDecreasing [⟨FragType.id, ""⟩, ⟨FragType.id, "b"⟩] ∧
    build ⟨FragType.id, ""⟩ [⟨FragType.id, "b"⟩] =
      (⟨⟨"", "b", [], [], [], ""⟩⟩, none) ∧
    Selector.stringify ⟨⟨"", "b", [], [], [], ""⟩⟩ = "#b" ∧
    fragsStr [⟨FragType.id, ""⟩, ⟨FragType.id, "b"⟩] = "##b" ∧
    ("#b" : String) ≠ "##b" := by
  refine ⟨by decide, by decide, by decide, by decide, by decide⟩

/-- C3 (amended): every fragment method call behaves exactly as the
duplication-then-ordering rule `orderCheckSpec` states: the non-element
methods raise `DuplicateKindError` when their own singleton slot is truthily
occupied, otherwise `OrderError` when some strictly later category is
present (equivalently, when the fragment's category index is lower than the
highest present index), and otherwise succeed and record the fragment; the
`element` method always throws (duplicate if its slot is truthy, order
otherwise). -/
theorem applyFrag_eq_orderCheckSpec (s : Selector) (f : Frag) :
    applyFrag s f = orderCheckSpec s f := by
  rcases f with ⟨t, v⟩
  cases t <;>
    simp only [applyFrag, orderCheckSpec, Selector.element, Selector.id, Selector.«class»,
      Selector.attr, Selector.pseudoClass, Selector.pseudoElement, dupSlot, insertFrag,
      Cache.existsLater, Cache.present, FragType.cat] <;>
    split_ifs <;>
    simp_all [List.length_eq_zero]

/-- C3 counterexample: after `id('a').class('c')`, calling `id('b')` — a
fragment whose category index 1 is strictly lower than the highest present
index 2 — raises `DuplicateKindError`, not `OrderError` as the claim
states. -/
theorem id_after_class_duplicate_cex :
    build ⟨FragType.id, "a"⟩ [⟨FragType.className, "c"⟩] =
      (⟨⟨"", "a", ["c"], [], [], ""⟩⟩, none) ∧
    (applyFrag ⟨⟨"", "a", ["c"], [], [], ""⟩⟩ ⟨FragType.id, "b"⟩).2 =
      some SelError.duplicateKind ∧
    FragType.id.cat < FragType.className.cat ∧
    Cache.present ⟨"", "a", ["c"], [], [], ""⟩ FragType.className.cat = true ∧
    some SelError.duplicateKind ≠ some SelError.order := by
  refine ⟨by decide, by decide, by decide, by decide, by decide⟩

/-- C10: a `Rectangle` built from `(w, h)` stores `width = w` and
`height = h` unchanged, and `getArea()` returns exactly `w * h`; stated for
any numeric type with a multiplication. -/
theorem rectangle_fields_area {α : Type} [Mul α] (w h : α) :
    (Rectangle.mk w h).width = w ∧ (Rectangle.mk w h).height = h ∧
      (Rectangle.mk w h).getArea = w * h :=
  ⟨rfl, rfl, rfl⟩

end ObjectsTasks
